import Mathlib

/-!
Verification development for the conversational image-assistant orchestrator
(`app/orchestrator.py`, `app/router.py`, `app/session_manager.py`,
`app/schemas.py`, `app/safety.py`, `app/onboarding_service.py`).

The Python code is shallowly embedded as executable Lean functions.
Conventions used throughout:

* Python `Optional[str]` fields become `Option String`; Python truthiness of
  such a value (`if x:` is false for both `None` and `""`) is `truthy`.
* `x or "default"` on strings is `pyOr`.
* `"pat" in s` (substring test) is `pyInB`, implemented from first principles
  so that it is both executable and easy to reason about.
* Calls to external collaborators (the OpenAI/Gemini text completion, the
  image tools, the DB) are modelled as oracle inputs collected in `Collab`:
  each oracle field stands for the value the external call produced on this
  turn.  Everything computed locally by the Python code is embedded directly.
* `datetime` bookkeeping fields (`created_at`/`updated_at`) carry no logic
  and are omitted from the session model.
-/

/-- Python truthiness of an `Optional[str]`: `None` and `""` are falsy. -/
def truthy : Option String → Bool
  | none => false
  | some s => s ≠ ""

/-- Python truthiness of a `str`. -/
def struthy (s : String) : Bool := s ≠ ""

/-- Python `x or d` for `x : Optional[str]`, `d` a (non-empty) literal. -/
def pyOr (x : Option String) (d : String) : String :=
  match x with
  | none => d
  | some s => if s = "" then d else s

/-- `pat` matches at the head of `s` (character-wise). -/
def headMatches : List Char → List Char → Bool
  | [], _ => true
  | _ :: _, [] => false
  | a :: as, b :: bs => a == b && headMatches as bs

/-- `pat` occurs somewhere in `s` — Python's `pat in s` on the char lists. -/
def containsSeq (pat : List Char) : List Char → Bool
  | [] => headMatches pat []
  | s@(_ :: rest) => headMatches pat s || containsSeq pat rest

/-- Python `pat in s` for strings. -/
def pyInB (pat s : String) : Bool := containsSeq pat.data s.data

/-- Python `s.lower()` character by character (ASCII letters; the Korean
keywords appearing in this code base are unaffected by lowercasing). -/
def pyToLower (s : String) : String := String.mk (s.data.map Char.toLower)

/-- Python's `\s` / whitespace class for the ASCII range (the inputs of this
code base never exercise non-ASCII whitespace). -/
def isPyWhitespace (c : Char) : Bool :=
  c = ' ' ∨ c = '\t' ∨ c = '\n' ∨ c = '\r' ∨ c = '\x0b' ∨ c = '\x0c'

/-- Python `s.strip()`. -/
def pyStrip (s : String) : String :=
  String.mk (((s.data.dropWhile isPyWhitespace).reverse.dropWhile isPyWhitespace).reverse)

/-- Python `s.replace(pat, rep)` on char lists: leftmost, non-overlapping.
The `fuel` argument (always called with more fuel than the list is long) only
makes the recursion structural, so that concrete inputs evaluate inside the
kernel; it never runs out. -/
def replaceSeqGo (pat rep : List Char) : Nat → List Char → List Char
  | 0, l => l
  | _ + 1, [] => []
  | fuel + 1, c :: rest =>
    if pat ≠ [] ∧ headMatches pat (c :: rest) = true then
      rep ++ replaceSeqGo pat rep fuel ((c :: rest).drop pat.length)
    else
      c :: replaceSeqGo pat rep fuel rest

/-- Python `s.replace(pat, rep)` for strings. -/
def pyReplace (s pat rep : String) : String :=
  String.mk (replaceSeqGo pat.data rep.data (s.data.length + 1) s.data)

/-! ## Data model (`app/schemas.py`) -/

/-- `GenerationTask.intent`: the pydantic field is `Literal["generate","edit"]`. -/
inductive Intent where
  | generate
  | edit
deriving DecidableEq, Repr

/-- `GenerationTask` (schemas.py lines 37-48).  `size` defaults to
`"1024x1024"`, every other non-intent field defaults to `None`. -/
structure GenerationTask where
  intent : Intent
  object : Option String := none
  style : Option String := none
  mood : Option String := none
  pose : Option String := none
  bg : Option String := none
  size : String := "1024x1024"
  prompt_en : Option String := none
  image_path : Option String := none
  mask_path : Option String := none
  selection_path : Option String := none
deriving DecidableEq, Repr

/-- `GenerationTask.is_complete` (schemas.py lines 50-56):
`generate` needs `bool(self.object and (self.style or "photo"))`,
`edit` needs `bool(self.image_path and (self.mask_path or self.prompt_en))`. -/
def GenerationTask.is_complete (t : GenerationTask) : Bool :=
  match t.intent with
  | .generate => truthy t.object && struthy (pyOr t.style "photo")
  | .edit => truthy t.image_path && (truthy t.mask_path || truthy t.prompt_en)

/-- `RouterDecision` (schemas.py lines 58-61).  In `route_with_llm` the
`clarify_question` field is never populated (the `ask` branch returns it as
`None`), so the embedding drops it. -/
inductive RouterDecision where
  | ask
  | chat
  | run (task : GenerationTask)
deriving DecidableEq, Repr

/-! ## Slot extractor (`_extract_slots_from_message`, orchestrator.py 46-84) -/

/-- The `slots` dict of `_extract_slots_from_message`: the function only ever
writes the keys `style`, `pose`, `bg` and `mood`, so the mapping is modelled
as a record of those four optional entries (`none` = key absent). -/
structure Slots where
  style : Option String := none
  pose : Option String := none
  bg : Option String := none
  mood : Option String := none
deriving DecidableEq, Repr

/-- The "don't care" markers of orchestrator.py line 52, tested against the
lowercased message. -/
def dontCareMarkers : List String :=
  ["몰라", "모르", "상관없", "아무", "랜덤", "그냥", "대충"]

/-- Does the lowercased message contain a "don't care" marker? -/
def hasDontCare (message : String) : Bool :=
  dontCareMarkers.any fun k => pyInB k (pyToLower message)

/-- Style branch of the extractor (orchestrator.py 61-66): note that the
Korean keywords are tested against the raw message and the English ones
against the lowercased message, exactly as in the source. -/
def styleSlot (message : String) : Option String :=
  let ml := pyToLower message
  if pyInB "실사" message || pyInB "포토" message || pyInB "photo" ml then some "photo"
  else if pyInB "만화" message || pyInB "애니" message || pyInB "anime" ml then some "anime"
  else if pyInB "일러스트" message || pyInB "illustration" ml then some "illustration"
  else none

/-- Pose branch of the extractor (orchestrator.py 69-74). -/
def poseSlot (message : String) : Option String :=
  let ml := pyToLower message
  if pyInB "앉아" message || pyInB "sitting" ml then some "sitting"
  else if pyInB "서있" message || pyInB "standing" ml then some "standing"
  else if pyInB "지키" message || pyInB "guard" ml then some "standing guard"
  else none

/-- Background branch of the extractor (orchestrator.py 77-82). -/
def bgSlot (message : String) : Option String :=
  let ml := pyToLower message
  if pyInB "공원" message || pyInB "park" ml then some "park"
  else if pyInB "거리" message || pyInB "street" ml then some "street"
  else if pyInB "밤" message || pyInB "night" ml then some "night street"
  else none

/-- The default bundle returned on a "don't care" message
(orchestrator.py 53-58): note it also fixes `mood`. -/
def dontCareBundle : Slots :=
  { style := some "illustration", pose := some "sitting",
    bg := some "white background", mood := some "cute" }

/-- `_extract_slots_from_message` (orchestrator.py 46-84). -/
def extract_slots_from_message (message : String) : Slots :=
  if hasDontCare message then dontCareBundle
  else
    { style := styleSlot message, pose := poseSlot message,
      bg := bgSlot message, mood := none }

/-- The merge loop `for key, value in slots.items(): setattr(pending, key, value)`
(orchestrator.py 658-659, 673-674, 748-749): every extracted slot is written
unconditionally onto the task. -/
def applySlots (t : GenerationTask) (sl : Slots) : GenerationTask :=
  let t1 := match sl.style with | some v => { t with style := some v } | none => t
  let t2 := match sl.pose with | some v => { t1 with pose := some v } | none => t1
  let t3 := match sl.bg with | some v => { t2 with bg := some v } | none => t2
  match sl.mood with | some v => { t3 with mood := some v } | none => t3

/-- Extract slots from `message` and merge them into the pending task. -/
def applyExtract (t : GenerationTask) (message : String) : GenerationTask :=
  applySlots t (extract_slots_from_message message)

/-! ## Defaults and prompt building (orchestrator.py 200-297) -/

/-- `_fill_defaults` (orchestrator.py 250-277).  In Python the task is mutated
in place; here the updated task is returned. -/
def fill_defaults (t : GenerationTask) (user_msg : String) : GenerationTask :=
  let ml := pyToLower user_msg
  let obj :=
    if truthy t.object then t.object
    else if pyInB "강아지" user_msg || pyInB "dog" ml then some "dog"
    else if pyInB "고양이" user_msg || pyInB "cat" ml then some "cat"
    else if pyInB "셰퍼드" user_msg || pyInB "german shepherd" ml then some "German shepherd"
    else some "cute character"
  { t with
    object := obj,
    style := if truthy t.style then t.style else some "illustration",
    pose := if truthy t.pose then t.pose else some "standing",
    bg := if truthy t.bg then t.bg else some "plain white",
    mood := if truthy t.mood then t.mood else some "cute" }

/-- `_has_minimum_fields` (orchestrator.py 279-281):
`bool(task.object and task.intent in ["generate", "edit"])`; the membership
test is always true for a well-typed task, leaving the object truthiness. -/
def has_minimum_fields (t : GenerationTask) : Bool :=
  truthy t.object && (t.intent = .generate || t.intent = .edit)

/-- `_create_basic_task` (orchestrator.py 283-297). -/
def create_basic_task (message : String) : GenerationTask :=
  let ml := pyToLower message
  let obj :=
    if pyInB "강아지" message || pyInB "dog" ml then "dog"
    else if pyInB "고양이" message || pyInB "cat" ml then "cat"
    else if pyInB "셰퍼드" message || pyInB "german shepherd" ml then "German shepherd"
    else "subject"
  { intent := .generate, object := some obj }

/-- The `mood_map.get(mood, mood)` lookup of `_build_prompt`
(orchestrator.py 216-222). -/
def moodDesc (mood : String) : String :=
  if mood = "cute" then "cute, adorable, whimsical, soft pastel colors, warm, cozy"
  else if mood = "brave" then "brave, heroic"
  else if mood = "calm" then "calm, serene"
  else if mood = "cool" then "cool, stylish"
  else mood

/-- `_build_prompt` (orchestrator.py 207-248).  Missing object/pose/bg/mood
fields default inline to "subject"/"standing"/"plain white background"/"cute";
a missing style defaults to `"illustration"`; the style string is lowercased
and dispatched over the five templates, any unrecognized style landing on the
final photo template. -/
def build_prompt (t : GenerationTask) : String :=
  let obj := pyOr t.object "subject"
  let pose := pyOr t.pose "standing"
  let bg := pyOr t.bg "plain white background"
  let mood := pyOr t.mood "cute"
  let style := pyToLower (pyOr t.style "illustration")
  let md := moodDesc mood
  if style = "anime" ∨ style = "cartoon" then
    "anime style illustration of a " ++
      (obj ++ (", " ++ pose ++ ", in " ++ bg ++ ", " ++ md ++
        ", cel-shaded, clean bold outlines, large expressive eyes, soft lighting, pastel tones, high quality"))
  else if style = "illustration" ∨ style = "illustr" ∨ style = "vector" then
    "flat vector illustration of a " ++
      (obj ++ (", " ++ pose ++ ", in " ++ bg ++ ", " ++ md ++
        ", minimal shading, clean lines, simple shapes, vibrant colors, high quality"))
  else if style = "pencil" ∨ style = "sketch" then
    "pencil sketch of a " ++
      (obj ++ (", " ++ pose ++ ", in " ++ bg ++ ", " ++ md ++
        ", graphite shading, cross-hatching, paper texture, soft strokes, high quality"))
  else if style = "3d" ∨ style = "3d render" then
    "3D render of a " ++
      (obj ++ (", " ++ pose ++ ", in " ++ bg ++ ", " ++ md ++
        ", soft studio lighting, realistic materials, global illumination, high quality"))
  else
    "highly detailed photorealistic photograph of a " ++
      (obj ++ (", " ++ pose ++ ", in " ++ bg ++ ", " ++ md ++
        ", 50mm lens, shallow depth of field, natural lighting, high quality"))

/-- The forced-run prompt built when a second `ask` is suppressed
(orchestrator.py 752-757). -/
def forcedPrompt (p : GenerationTask) : String :=
  "A " ++ pyOr p.style "illustration" ++ " style " ++ pyOr p.object "subject" ++
    " in " ++ pyOr p.bg "white background" ++ ", " ++ pyOr p.pose "natural pose" ++
    ", cute, warm, cozy, high quality"

/-! ## Session context (`app/session_manager.py` 9-48) -/

/-- `SessionContext` (session_manager.py 9-24).  The `session_id` and the two
`datetime` bookkeeping fields carry no decision logic and are omitted;
`pending_task` is typed `Optional[Dict]` in Python but every task stored by
the orchestrator's core paths is a `GenerationTask`. -/
structure SessionCtx where
  user_name : Option String := none
  is_onboarded : Bool := false
  asked_once : Bool := false
  pending_task : Option GenerationTask := none
deriving DecidableEq, Repr

/-- A freshly constructed `SessionContext` (the dataclass defaults). -/
def freshSession : SessionCtx := {}

/-- `SessionContext.mark_onboarded` (session_manager.py 26-31). -/
def mark_onboarded (s : SessionCtx) (name : String) : SessionCtx :=
  { s with user_name := some name, is_onboarded := true }

/-- `SessionContext.set_pending_task` (session_manager.py 33-38): stores the
task and sets `asked_once := True` in the same operation. -/
def set_pending_task (s : SessionCtx) (t : GenerationTask) : SessionCtx :=
  { s with pending_task := some t, asked_once := true }

/-- `SessionContext.clear_pending_task` (session_manager.py 40-44): clears
`pending_task` but leaves `asked_once` untouched. -/
def clear_pending_task (s : SessionCtx) : SessionCtx :=
  { s with pending_task := none }

/-- The named mutating operations of `SessionContext`. -/
inductive SessOp where
  | setPending (t : GenerationTask)
  | clearPending
  | markOnboarded (name : String)
deriving Repr

/-- Apply one session operation. -/
def applySessOp (s : SessionCtx) : SessOp → SessionCtx
  | .setPending t => set_pending_task s t
  | .clearPending => clear_pending_task s
  | .markOnboarded n => mark_onboarded s n

/-- Apply a sequence of session operations, oldest first. -/
def applySessOps (ops : List SessOp) (s : SessionCtx) : SessionCtx :=
  List.foldl applySessOp s ops

/-! ## Intent router (`app/router.py`) -/

/-- `normalize_style` (router.py 53-69). -/
def normalize_style (s : String) : String :=
  if s = "" then "photo"
  else
    let s := pyReplace (pyReplace (pyReplace (pyToLower s) " " "") "//" "/") "\\" "/"
    if pyInB "anime" s || pyInB "cartoon" s then "anime"
    else if pyInB "illustr" s then "illustration"
    else if pyInB "photo" s || pyInB "realistic" s then "photo"
    else if pyInB "3d" s then "3d"
    else "photo"

/-- The raw `data["task"]` dict carried by a parsed router response, before
pydantic validation (`GenerationTask(**data["task"])`, router.py 157). -/
structure TaskData where
  intent : Option String := none
  object : Option String := none
  style : Option String := none
  mood : Option String := none
  pose : Option String := none
  bg : Option String := none
  size : Option String := none
  prompt_en : Option String := none
  image_path : Option String := none
  mask_path : Option String := none
deriving DecidableEq, Repr

/-- Pydantic validation of the `intent` literal: anything other than
`"generate"`/`"edit"` raises `ValidationError`. -/
def parseIntent : Option String → Option Intent
  | some "generate" => some .generate
  | some "edit" => some .edit
  | _ => none

/-- `GenerationTask(**data["task"])` (router.py 157): fails (`none`) exactly
when pydantic would raise, i.e. when `intent` is absent or not one of the two
literals; `size` takes its declared default when absent. -/
def mkGenerationTask (d : TaskData) : Option GenerationTask :=
  (parseIntent d.intent).map fun i =>
    { intent := i, object := d.object, style := d.style, mood := d.mood,
      pose := d.pose, bg := d.bg, size := d.size.getD "1024x1024",
      prompt_en := d.prompt_en, image_path := d.image_path,
      mask_path := d.mask_path, selection_path := none }

/-- Outcome of the external text-completion call plus `json.loads`, as seen by
`route_with_llm` (router.py 127-152):
* `noKeys` — neither API key configured (line 137);
* `raised` — the transport call or `json.loads` raised (caught at line 147);
* `parsed na task` — a JSON object was obtained; `na` is `data.get("next_action")`
  and `task` is `data.get("task")` (with `none` standing for an absent or
  Python-falsy, i.e. empty-dict, value). -/
inductive CollabResult where
  | noKeys
  | raised
  | parsed (next_action : Option String) (task : Option TaskData)
deriving DecidableEq, Repr

/-- The defensive fallback of router.py 139-142 and 149-152: keep a pending
task in flight, otherwise drop to chat. -/
def fallbackDecision (pending : Option GenerationTask) : RouterDecision :=
  match pending with
  | some p => .run p
  | none => .chat

/-- `route_with_llm` (router.py 118-170).  The returned value is `none`
exactly when the Python function raises: that happens only in the
`next_action == "run"` branch, where `GenerationTask(**data["task"])` sits
outside the `try`/`except` and a pydantic `ValidationError` propagates. -/
def route_with_llm (pending : Option GenerationTask) (res : CollabResult) :
    Option RouterDecision :=
  match res with
  | .noKeys => some (fallbackDecision pending)
  | .raised => some (fallbackDecision pending)
  | .parsed na task =>
    if na = some "run" ∧ task.isSome then
      match task with
      | some td =>
        match mkGenerationTask td with
        | none => none
        | some t =>
          let t1 := if struthy t.size then t else { t with size := "1024x1024" }
          let t2 :=
            match t1.style with
            | some st => if st ≠ "" then { t1 with style := some (normalize_style st) } else t1
            | none => t1
          some (.run t2)
      | none => some .chat
    else if na = some "ask" then some .ask
    else some .chat

/-! ## Safety guard (`app/safety.py`) -/

/-- After the fixed part of a `a\s*b` regex, skip any run of whitespace and
require `b` (with backtracking over the whitespace run). -/
def wsThenMatch (b : List Char) : List Char → Bool
  | [] => headMatches b []
  | s@(c :: rest) => headMatches b s || (isPyWhitespace c && wsThenMatch b rest)

/-- Does `a ++ \s* ++ b` match at the head of `s`?  Mirrors the regex
`a\s*b` anchored at the current position. -/
def headMatchesWS (a b s : List Char) : Bool :=
  if headMatches a s then wsThenMatch b (s.drop a.length) else false

/-- `re.search(a\s*b, s)`: the anchored match tried at every position. -/
def containsSeqWS (a b : List Char) : List Char → Bool
  | [] => headMatchesWS a b []
  | s@(_ :: rest) => headMatchesWS a b s || containsSeqWS a b rest

/-- The fixed-text prohibited patterns of safety.py 4-11.  `방\/?화` is the
alternation of the two literals `방화` and `방/화`; the remaining entries are
plain substrings.  `re.IGNORECASE` is irrelevant for these all-Korean
patterns. -/
def prohibitedLiterals : List String :=
  ["방화", "방/화", "폭탄", "폭발물", "폭발", "테러", "살인", "폭행", "납치",
   "총기", "자살", "자해"]

/-- `detect_prohibited` (safety.py 14-26): the two `\s*` patterns
(`무기\s*제작`, `폭발물\s*제작`) are checked alongside the literal ones; any
hit returns the fixed reason string. -/
def detect_prohibited (user_text : String) : Option String :=
  if prohibitedLiterals.any (fun p => pyInB p user_text) ||
      containsSeqWS "무기".data "제작".data user_text.data ||
      containsSeqWS "폭발물".data "제작".data user_text.data then
    some "폭력·불법 행위를 조장/미화하는 요청"
  else none

/-! ## Onboarding name extraction (`app/onboarding_service.py`) -/

/-- Is `c` in the Hangul syllable range `[가-힣]`? -/
def isHangul (c : Char) : Bool := 0xAC00 ≤ c.toNat && c.toNat ≤ 0xD7A3

/-- `re.findall(r'[가-힣]{2,4}', message)` on the char list: at each position
the greedy quantifier takes up to four consecutive Hangul syllables; a match
needs at least two, and scanning resumes after a match (findall matches never
overlap). -/
def reFindallKoreanGo : Nat → List Char → List String
  | 0, _ => []
  | _ + 1, [] => []
  | fuel + 1, c :: rest =>
    if isHangul c then
      let m := ((c :: rest).takeWhile isHangul).take 4
      if 2 ≤ m.length then
        String.mk m :: reFindallKoreanGo fuel ((c :: rest).drop m.length)
      else
        reFindallKoreanGo fuel rest
    else
      reFindallKoreanGo fuel rest

/-- `re.findall(r'[가-힣]{2,4}', ...)` with the fuel always ample (each step
consumes at least one character). -/
def reFindallKorean (l : List Char) : List String :=
  reFindallKoreanGo (l.length + 1) l

/-- `OnboardingService.exclude_keywords` (onboarding_service.py 21-26). -/
def excludeKeywords : List String :=
  ["안녕", "졸려", "피곤", "대화", "생성", "편집", "사진", "이미지",
   "강아지", "고양이", "셰퍼드", "차", "풍경", "만화", "실사",
   "앉아", "서있", "지키", "공원", "거리", "밤", "하루", "오늘",
   "어떤", "무엇", "도와", "필요", "원해", "만들", "그려", "그림"]

/-- `OnboardingService._is_likely_name` (onboarding_service.py 43-58). -/
def is_likely_name (candidate message : String) : Bool :=
  if candidate.length < 2 || 4 < candidate.length then false
  else if candidate ∈ excludeKeywords then false
  else
    let txt := pyToLower message
    let pats : List String :=
      ["저는 " ++ candidate, "제 이름은 " ++ candidate, "내 이름은 " ++ candidate,
       candidate ++ "입니다", candidate ++ "이에요", candidate ++ "예요",
       "저는 " ++ candidate ++ "입니다", "제 이름은 " ++ candidate ++ "입니다"]
    if pats.any (fun p => pyInB p txt) then true
    else if (pyStrip message).length ≤ 4 && candidate = pyStrip message then true
    else false

/-- `OnboardingService.extract_user_name` (onboarding_service.py 32-41). -/
def extract_user_name (message : String) : Option String :=
  if message = "" || (pyStrip message).length < 2 then none
  else
    (reFindallKorean message.data).find? fun m =>
      m ∉ excludeKeywords && is_likely_name m message

/-- The onboarding reply built by `handle_onboarding` once a name is
extracted (onboarding_service.py 79-88). -/
def onboardGreeting (name : String) : String :=
  "안녕하세요, " ++ name ++ "님! 😊 만나서 반가워요!\n" ++
  "오늘 어떤 도움이 필요하신가요?\n" ++
  "• 궁금한 것이 있으시거나 질문이 있으시면 언제든 물어보세요\n" ++
  "• 이미지나 비디오, 음악을 만들고 싶으시다면 도와드릴게요\n" ++
  "• 번역이나 글 작성 같은 작업도 가능해요\n" ++
  "• 그냥 편하게 대화를 나누고 싶으시다면 그것도 좋아요!\n" ++
  "무엇을 도와드릴까요? ✨"

/-! ## The orchestrator turn (`orchestrate`, orchestrator.py 400-921)

The embedding covers one call to `orchestrate` from the onboarding check
(line 457) through the whole decision logic, including the pre-dispatch edit
guards at lines 822-843 (which can themselves return need-more-info
questions); only the hand-off to the execution adapter itself (the ADK/tool
dispatch starting at line 845) is outside the model, so a turn that reaches
that hand-off ends in the `run` outcome.

The user/session bootstrap (lines 412-453) and all message-log writes are
database plumbing without decision logic and are omitted.  The regex test
`_wants_generate_override(message)` is a pure predicate of the message and is
passed in as the boolean `genOverride`. -/

/-- The per-turn request data handed to `orchestrate`. -/
structure TurnInput where
  msg : String := ""
  imagePath : Option String := none
  maskPath : Option String := none
  selectionPath : Option String := none
  intentOverride : Option String := none
  pendingId : Option String := none
  genOverride : Bool := false

/-- Results of the external collaborator calls `orchestrate` can make during
one turn.  Each field is the value the corresponding call would produce:
* `router` — `route_with_llm(history, message, pending)` as a function of the
  pending argument (history and message are fixed within a turn);
* `editIntent` — `_classify_edit_intent(message)`;
* `lastImageUrl` — `_get_last_image_url(session_id)`;
* `fastEditUrl`/`fastGenUrl` — URL when the fast-path tool call succeeds
  (lines 508-518 / 525-530), `none` when it fails or raises;
* `editSpecMissing`/`editSpecQuestion` — the `missing`/`question` parts of
  `_build_edit_spec(message)`; `editSpecPrompt` — the prompt
  `_compose_edit_prompt` builds from the spec part (line 842);
* `editToolOk` — status of `edit_image_tool` in the override-edit flow;
* `clarifyQuestion` — the clarifying-question text (LLM output or the
  template fallback, lines 720-740);
* `chatReply`/`generalReply` — the chat-mode LLM reply (lines 779-792) and
  `get_general_chat_response(user_name)` (line 764). -/
structure Collab where
  router : Option GenerationTask → RouterDecision
  editIntent : Bool := false
  lastImageUrl : Option String := none
  fastEditUrl : Option String := none
  fastGenUrl : Option String := none
  editSpecMissing : Bool := false
  editSpecQuestion : String := ""
  editSpecPrompt : String := "composed edit prompt"
  editToolOk : Bool := false
  clarifyQuestion : String := "clarify?"
  chatReply : String := "chat"
  generalReply : String := "general"

/-- How the modelled part of the turn ends.  `run` means the task was handed
to the execution adapter (orchestrator.py 813); `errorRaised` marks the paths
where `orchestrate` raises (`ImageGenerationError` / `AttributeError`). -/
inductive Outcome where
  | onboard (reply : String)
  | refusal
  | fastEdit (url : String)
  | fastGen (url : String)
  | editApplied
  | errorRaised
  | ask (question : String)
  | chat (reply : String)
  | run (task : GenerationTask)
deriving DecidableEq, Repr

/-- Is the outcome a clarifying question back to the user? -/
def Outcome.isAsk : Outcome → Bool
  | .ask _ => true
  | _ => false

/-- Result of one modelled turn: the outcome, the session object as the turn
leaves it, and whether `route_with_llm` / `_extract_slots_from_message` were
reached before the turn ended. -/
structure TurnResult where
  outcome : Outcome
  sess : Option SessionCtx
  routerCalled : Bool
  extractorCalled : Bool
deriving Repr

/-- The edit pending task synthesized for a selection/mask attachment
(orchestrator.py 536-543): each path is copied only when truthy. -/
def synthesizeAttachmentTask (imagePath maskPath selectionPath : Option String) :
    GenerationTask :=
  let t : GenerationTask := { intent := .edit }
  let t1 := if truthy imagePath then { t with image_path := imagePath } else t
  let t2 := if truthy maskPath then { t1 with mask_path := maskPath } else t1
  if truthy selectionPath then { t2 with selection_path := selectionPath } else t2

/-- Python `q or d` for two strings (`question or "..."`, lines 596, 839). -/
def pyStrOr (q d : String) : String := if q = "" then d else q

/-- The fixed question of orchestrator.py 829: an edit payload with no image
and no recent image in the session log asks the user to upload a photo. -/
def askImageQuestion : String :=
  "편집할 사진을 올려 주세요. 방금 만든 이미지를 쓰려면 \x27방금 이미지로\x27라고 답해도 좋아요."

/-- The fallback question text of orchestrator.py 596 and 839. -/
def editSpecFallbackQuestion : String := "원하는 수정을 한 줄로 알려주세요."

/-- The run branch (orchestrator.py 797-845): last-resort defaulting via
`_fill_defaults` when minimum fields are missing (800-803), attachment-path
injection for edit tasks (805-811), `clear_pending_task` right before the
dispatch block (817-818), and the pre-dispatch edit guards (822-843): an edit
payload without an image falls back to the most recent image in the session
log or, failing that, returns the upload-a-photo question (824-831); an edit
payload without a prompt gets the edit-spec treatment — the spec question
when information is missing, otherwise the composed edit prompt (833-843).
Only then is the payload handed to the execution adapter (line 845 onward),
which is outside the model, so such a turn ends in the `run` outcome.
`payload.get("prompt")` and `payload.get("prompt_kr")` are always `None`,
since `model_dump` of a `GenerationTask` has neither key, so the prompt test
at line 834 reduces to the truthiness of `prompt_en`.  The guards of lines
820-843 are `editPreflight`; `runDispatch` below prepares the payload
(800-818) and hands it to them. -/
def editPreflight (c : Collab) (sess1 : Option SessionCtx) (rc ec : Bool)
    (t2 : GenerationTask) : TurnResult :=
  if t2.intent = .edit then
    match (if truthy t2.image_path then some t2
      else
        match c.lastImageUrl with
        | some url => some { t2 with image_path := some url }
        | none => none) with
    | none => ⟨.ask askImageQuestion, sess1, rc, ec⟩
    | some t3 =>
      if truthy t3.prompt_en then ⟨.run t3, sess1, rc, ec⟩
      else if c.editSpecMissing then
        ⟨.ask (pyStrOr c.editSpecQuestion editSpecFallbackQuestion), sess1, rc, ec⟩
      else ⟨.run { t3 with prompt_en := some c.editSpecPrompt }, sess1, rc, ec⟩
  else ⟨.run t2, sess1, rc, ec⟩

def runDispatch (inp : TurnInput) (c : Collab) (sess : Option SessionCtx)
    (rc ec : Bool) (t : GenerationTask) : TurnResult :=
  let t1 := if has_minimum_fields t then t else fill_defaults t inp.msg
  let t2 :=
    if t1.intent = .edit then
      let a := if truthy inp.imagePath && !truthy t1.image_path then
          { t1 with image_path := inp.imagePath } else t1
      let b := if truthy inp.maskPath && !truthy a.mask_path then
          { a with mask_path := inp.maskPath } else a
      if truthy inp.selectionPath && !truthy b.selection_path then
        { b with selection_path := inp.selectionPath } else b
    else t1
  editPreflight c (Option.map clear_pending_task sess) rc ec t2

/-- The action dispatch on the router decision (orchestrator.py 690-795).
On `ask` with `was_asked` already true the orchestrator never asks again: it
forces a run with extractor-merged slots and the default-boosted prompt
(lines 744-761) when a pending task exists, and otherwise answers with the
general chat reply (lines 762-766).  On a first `ask`, note that line 696
calls `session.set_pending_task` without a `None` guard, so a missing
session raises (`errorRaised`). -/
def handleDecision (inp : TurnInput) (sess : Option SessionCtx) (wasAsked : Bool)
    (pending : Option GenerationTask) (c : Collab) (rc ec : Bool)
    (d : RouterDecision) : TurnResult :=
  match d with
  | .ask =>
    if !wasAsked then
      match sess with
      | none => ⟨.errorRaised, none, rc, ec⟩
      | some s =>
        let t := match pending with | some p => p | none => create_basic_task inp.msg
        ⟨.ask c.clarifyQuestion, some (set_pending_task s t), rc, ec⟩
    else
      match pending with
      | some p =>
        let p1 := applyExtract p inp.msg
        let p2 := { p1 with prompt_en := some (forcedPrompt p1) }
        runDispatch inp c sess rc true p2
      | none => ⟨.chat c.generalReply, sess, rc, ec⟩
  | .chat => ⟨.chat c.chatReply, sess, rc, ec⟩
  | .run t => runDispatch inp c sess rc ec t

/-- Record the in-place mutation of the session's pending task object
(the `setattr` loop mutates the very object stored in the session). -/
def updateSessPending (sess : Option SessionCtx) (p : GenerationTask) :
    Option SessionCtx :=
  Option.map (fun s => { s with pending_task := some p }) sess

/-- The decision phase (orchestrator.py 616-686).

* A pending edit task carrying a selection/mask runs directly (617-619).
* First turn (no question asked, nothing pending): ask the router; a `chat`
  verdict can still be converted to an edit of the most recent image
  (632-647).
* `was_asked` with a pending task: re-ask the router with the pending task as
  context; on `run` the extractor merges slots into the pending object and
  `prompt_en` is rebuilt, while the decision keeps the router's own task
  (655-664 — the merged object is the session's pending, which the router's
  fallback may alias); on `chat` the pending task is abandoned (665-669).
* Pending without `was_asked`: run immediately without re-routing (670-681).
* Otherwise: plain router call (682-685). -/
def decidePhase (inp : TurnInput) (sess : Option SessionCtx) (wasAsked : Bool)
    (pending : Option GenerationTask) (c : Collab) : TurnResult :=
  match pending with
  | some p =>
    if p.intent = .edit && (truthy p.selection_path || truthy p.mask_path) then
      handleDecision inp sess wasAsked pending c false false (.run p)
    else if wasAsked then
      match c.router (some p) with
      | .run rt =>
        let p1 := applyExtract p inp.msg
        let p2 := { p1 with prompt_en := some (build_prompt p1) }
        handleDecision inp (updateSessPending sess p2) wasAsked (some p2) c true true (.run rt)
      | .chat =>
        handleDecision inp (Option.map clear_pending_task sess) wasAsked (some p) c true false .chat
      | .ask =>
        handleDecision inp sess wasAsked (some p) c true false .ask
    else
      let p1 := applyExtract p inp.msg
      let p2 :=
        if p1.intent = .generate then
          let q := fill_defaults p1 inp.msg
          { q with prompt_en := some (build_prompt q) }
        else p1
      handleDecision inp (updateSessPending sess p2) wasAsked (some p2) c false true (.run p2)
  | none =>
    if !wasAsked then
      match c.router none with
      | .chat =>
        if c.editIntent then
          match c.lastImageUrl with
          | some url =>
            handleDecision inp sess wasAsked none c true false
              (.run { intent := .edit, image_path := some url })
          | none => handleDecision inp sess wasAsked none c true false .chat
        else handleDecision inp sess wasAsked none c true false .chat
      | d => handleDecision inp sess wasAsked none c true false d
    else
      handleDecision inp sess wasAsked none c true false (c.router none)

/-- The dict pending task stored by the override-edit clarify branch
(orchestrator.py 588-595), approximated by an edit `GenerationTask` holding
the same attachment paths (the LLM `spec` payload lives outside the model). -/
def overridePendTask (imagePath selectionPath : Option String) : GenerationTask :=
  { intent := .edit, image_path := imagePath, selection_path := selectionPath }

/-- Python `session and session.pending_task` (orchestrator.py 554). -/
def sessHasPending : Option SessionCtx → Bool
  | some s => s.pending_task.isSome
  | none => false

/-- Python `session and not session.asked_once` (orchestrator.py 587). -/
def sessNotAskedYet : Option SessionCtx → Bool
  | some s => !s.asked_once
  | none => false

/-- The image+description override-edit flow (orchestrator.py 552-614),
entered when `intent_override` is `edit`/`edit_user_image` and an image was
uploaded.  The second-turn branch (554-582) executes and clears the pending;
the first-turn branch asks the clarify-once question only when
`session.asked_once` is still false (587-598), and otherwise edits
immediately (600-614). -/
def overrideEditStep (inp : TurnInput) (sess : Option SessionCtx) (wasAsked : Bool)
    (pending : Option GenerationTask) (c : Collab) : TurnResult :=
  if (inp.intentOverride = some "edit_user_image" ∨ inp.intentOverride = some "edit")
      && truthy inp.imagePath then
    if truthy inp.pendingId && sessHasPending sess then
      if c.editToolOk then
        ⟨.editApplied, Option.map clear_pending_task sess, false, false⟩
      else
        ⟨.errorRaised, Option.map clear_pending_task sess, false, false⟩
    else
      if c.editSpecMissing && sessNotAskedYet sess then
        match sess with
        | some s =>
          ⟨.ask (pyStrOr c.editSpecQuestion editSpecFallbackQuestion),
            some (set_pending_task s (overridePendTask inp.imagePath inp.selectionPath)),
            false, false⟩
        | none => ⟨.errorRaised, none, false, false⟩
      else
        if c.editToolOk then ⟨.editApplied, sess, false, false⟩
        else ⟨.errorRaised, sess, false, false⟩
  else decidePhase inp sess wasAsked pending c

/-- The attachment-triggered synthesis step (orchestrator.py 534-549): with a
selection or mask present and nothing pending, an edit task is synthesized;
when a session object exists it is stored via `set_pending_task` and the
local `was_asked` is forced to `True` (lines 545-547 are guarded by
`if session:`). -/
def attachmentStep (inp : TurnInput) (sess : Option SessionCtx) (wasAsked : Bool)
    (pending : Option GenerationTask) (c : Collab) : TurnResult :=
  if (truthy inp.selectionPath || truthy inp.maskPath) && pending.isNone then
    let t := synthesizeAttachmentTask inp.imagePath inp.maskPath inp.selectionPath
    match sess with
    | some s => overrideEditStep inp (some (set_pending_task s t)) true (some t) c
    | none => overrideEditStep inp none wasAsked (some t) c
  else overrideEditStep inp sess wasAsked pending c

/-- The generate fast path (orchestrator.py 522-532). -/
def fastGenStep (inp : TurnInput) (sess : Option SessionCtx) (wasAsked : Bool)
    (pending : Option GenerationTask) (c : Collab) : TurnResult :=
  if inp.genOverride then
    match c.fastGenUrl with
    | some url => ⟨.fastGen url, sess, false, false⟩
    | none => attachmentStep inp sess wasAsked pending c
  else attachmentStep inp sess wasAsked pending c

/-- The edit fast path (orchestrator.py 500-520): an uploaded image without a
generate-override is edited immediately; on tool failure the normal flow
continues. -/
def fastEditStep (inp : TurnInput) (sess : Option SessionCtx) (wasAsked : Bool)
    (pending : Option GenerationTask) (c : Collab) : TurnResult :=
  if truthy inp.imagePath && !inp.genOverride then
    match c.fastEditUrl with
    | some url => ⟨.fastEdit url, sess, false, false⟩
    | none => fastGenStep inp sess wasAsked pending c
  else fastGenStep inp sess wasAsked pending c

/-- Everything after the safety guard: read `pending`/`was_asked` from the
session (orchestrator.py 490-491) and continue with the fast paths. -/
def afterSafetyStep (inp : TurnInput) (sess : Option SessionCtx) (c : Collab) :
    TurnResult :=
  let pending := match sess with | some s => s.pending_task | none => none
  let wasAsked := match sess with | some s => s.asked_once | none => false
  fastEditStep inp sess wasAsked pending c

/-- The safety guard (orchestrator.py 474-486): a prohibited message returns
the fixed refusal before any routing or extraction. -/
def safetyStep (inp : TurnInput) (sess : Option SessionCtx) (c : Collab) :
    TurnResult :=
  if (detect_prohibited inp.msg).isSome then ⟨.refusal, sess, false, false⟩
  else afterSafetyStep inp sess c

/-- One modelled `orchestrate` turn, starting at the onboarding check
(orchestrator.py 455-470): a not-yet-onboarded session whose message yields a
user name is onboarded immediately and the greeting is returned before the
safety guard ever runs; otherwise the turn proceeds through the guard. -/
def orchestrateTurn (inp : TurnInput) (sess : Option SessionCtx) (c : Collab) :
    TurnResult :=
  match sess with
  | some s =>
    if !s.is_onboarded then
      match extract_user_name inp.msg with
      | some n => ⟨.onboard (onboardGreeting n), some (mark_onboarded s n), false, false⟩
      | none => safetyStep inp (some s) c
    else safetyStep inp (some s) c
  | none => safetyStep inp none c

/-! ## Concrete instances used by witnesses and counterexamples -/

/-- A collaborator whose router always answers `ask` (worst case for the
clarify-once policy); all other oracles at their defaults — in particular
`lastImageUrl = none`, a session log without images. -/
def collabAsk : Collab := { router := fun _ => .ask }

/-- A collaborator whose router answers `run` with a bare edit task (no
image, no prompt), over a session log without images. -/
def collabRunEdit : Collab := { router := fun _ => .run { intent := .edit } }

/-- A collaborator over a session log whose most recent image is known, with
a complete edit spec. -/
def collabRecentImage : Collab :=
  { router := fun _ => .ask, lastImageUrl := some "http://img/last.png" }

/-- A concrete pending task: a generate task for a cat. -/
def catTask : GenerationTask := { intent := .generate, object := some "cat" }

/-- A concrete task whose style slot is already set. -/
def photoStyleTask : GenerationTask := { intent := .generate, style := some "photo" }

/-! # Theorems -/

/-! ## String-containment helper lemmas -/

theorem headMatches_self_append (as bs : List Char) :
    headMatches as (as ++ bs) = true := by
  induction as with
  | nil => rfl
  | cons a as ih => simp [headMatches, ih]

theorem containsSeq_nil_pat (l : List Char) : containsSeq [] l = true := by
  cases l with
  | nil => rfl
  | cons x xs => simp [containsSeq, headMatches]

theorem containsSeq_self_append (pat rest : List Char) :
    containsSeq pat (pat ++ rest) = true := by
  cases pat with
  | nil => exact containsSeq_nil_pat rest
  | cons p ps =>
    simp only [List.cons_append, containsSeq, Bool.or_eq_true]
    exact Or.inl (headMatches_self_append (p :: ps) rest)

theorem containsSeq_append_left (pat xs ys : List Char)
    (h : containsSeq pat ys = true) : containsSeq pat (xs ++ ys) = true := by
  induction xs with
  | nil => exact h
  | cons x xs ih =>
    simp only [List.cons_append, containsSeq, Bool.or_eq_true]
    exact Or.inr ih

theorem pyInB_middle (pre mid post : String) :
    pyInB mid (pre ++ (mid ++ post)) = true := by
  show containsSeq mid.data (pre.data ++ (mid.data ++ post.data)) = true
  exact containsSeq_append_left _ _ _ (containsSeq_self_append _ _)

/-! ## C3 — session-state coupling -/

/-- C3 (counterexample): the claim "asked_once is true iff pending_task is
non-null; the two are cleared together, and after clear_pending_task
asked_once is reset to false" is false on the code: after
`set_pending_task` followed by `clear_pending_task` on a fresh session,
`pending_task` is `None` but `asked_once` is still `True`. -/
theorem session_coupling_counterexample :
    (clear_pending_task (set_pending_task freshSession catTask)).asked_once = true ∧
    (clear_pending_task (set_pending_task freshSession catTask)).pending_task = none ∧
    ¬((clear_pending_task (set_pending_task freshSession catTask)).asked_once = true ↔
      (clear_pending_task (set_pending_task freshSession catTask)).pending_task ≠ none) := by
  refine ⟨rfl, rfl, ?_⟩
  intro h
  exact (h.mp rfl) rfl

/-- C3 (amended): `set_pending_task` installs the task and sets `asked_once`
together; `clear_pending_task` clears only `pending_task` and leaves
`asked_once` exactly as it was — it is not reset to false on dispatch. -/
theorem session_coupling (s : SessionCtx) (t : GenerationTask) :
    (set_pending_task s t).pending_task = some t ∧
    (set_pending_task s t).asked_once = true ∧
    (clear_pending_task s).pending_task = none ∧
    (clear_pending_task s).asked_once = s.asked_once :=
  ⟨rfl, rfl, rfl, rfl⟩

/-! ## C9 — pending implies asked -/

theorem sessOp_preserves_inv (s : SessionCtx) (op : SessOp)
    (h : s.pending_task ≠ none → s.asked_once = true) :
    (applySessOp s op).pending_task ≠ none → (applySessOp s op).asked_once = true := by
  cases op with
  | setPending t => intro _; rfl
  | clearPending => intro hc; exact absurd rfl hc
  | markOnboarded n => intro hp; exact h hp

/-- C9: starting from a freshly created `SessionContext`, after any sequence
of `mark_onboarded` / `set_pending_task` / `clear_pending_task` calls, a
non-null `pending_task` implies `asked_once = true`: `set_pending_task` is
the only operation that installs a task and it always sets the flag. -/
theorem pending_implies_asked (ops : List SessOp)
    (h : (applySessOps ops freshSession).pending_task ≠ none) :
    (applySessOps ops freshSession).asked_once = true := by
  suffices hgen : ∀ (l : List SessOp) (s : SessionCtx),
      (s.pending_task ≠ none → s.asked_once = true) →
      ((applySessOps l s).pending_task ≠ none → (applySessOps l s).asked_once = true) by
    exact hgen ops freshSession (fun hc => absurd rfl hc) h
  intro l
  induction l with
  | nil => intro s hs; exact hs
  | cons op rest ih => intro s hs; exact ih _ (sessOp_preserves_inv s op hs)

/-- C9 (witness): a single `set_pending_task` leaves a session with a pending
task, and the theorem yields `asked_once = true` there. -/
theorem pending_implies_asked_witness :
    (applySessOps [SessOp.setPending catTask] freshSession).pending_task ≠ none ∧
    (applySessOps [SessOp.setPending catTask] freshSession).asked_once = true :=
  ⟨by decide, pending_implies_asked [SessOp.setPending catTask] (by decide)⟩

/-! ## C10 — don't-care extraction -/

/-- C10: a message containing a don't-care marker (in lowercased form) makes
`_extract_slots_from_message` return exactly the four-entry bundle
`{style: illustration, pose: sitting, bg: white background, mood: cute}` —
mood included — regardless of any explicit style/pose/background keywords in
the same message; and a message matching no keyword at all yields the empty
mapping. -/
theorem extract_slots_dontcare_and_empty (m : String) :
    (hasDontCare m = true → extract_slots_from_message m = dontCareBundle) ∧
    (hasDontCare m = false → styleSlot m = none → poseSlot m = none →
      bgSlot m = none → extract_slots_from_message m = {}) := by
  constructor
  · intro h
    simp [extract_slots_from_message, h]
  · intro h hs hp hb
    simp [extract_slots_from_message, h, hs, hp, hb]

/-- C10 (witness): "몰라 실사로" carries both a don't-care marker and an
explicit style keyword, and still maps to the full default bundle; "hello"
matches nothing and maps to the empty record. -/
theorem extract_slots_dontcare_witness :
    (hasDontCare "몰라 실사로" = true ∧
      extract_slots_from_message "몰라 실사로" = dontCareBundle) ∧
    (hasDontCare "hello" = false ∧ extract_slots_from_message "hello" = {}) :=
  ⟨⟨rfl, (extract_slots_dontcare_and_empty "몰라 실사로").1 rfl⟩,
   ⟨rfl, (extract_slots_dontcare_and_empty "hello").2 rfl rfl rfl rfl⟩⟩

/-! ## C5 — slot-merge semantics -/

/-- C5 (counterexample): the claim "fields already set are left unchanged —
extracted slots overwrite unset fields only" is false: merging the message
"anime" into a task whose style is already "photo" overwrites the style. -/
theorem slot_merge_counterexample :
    photoStyleTask.style = some "photo" ∧
    (applyExtract photoStyleTask "anime").style = some "anime" ∧
    (applyExtract photoStyleTask "anime").style ≠ photoStyleTask.style := by
  refine ⟨rfl, by decide, by decide⟩

/-- C5 (amended): the merge writes every extracted slot (style/pose/bg/mood)
unconditionally — set or unset — while all fields the extractor never
produces (intent, object, size, prompt_en and the three paths) are left
unchanged; re-applying the merge with the same message is idempotent. -/
theorem slot_merge_idempotent_frame (t : GenerationTask) (m : String) :
    applyExtract (applyExtract t m) m = applyExtract t m ∧
    (applyExtract t m).intent = t.intent ∧
    (applyExtract t m).object = t.object ∧
    (applyExtract t m).size = t.size ∧
    (applyExtract t m).prompt_en = t.prompt_en ∧
    (applyExtract t m).image_path = t.image_path ∧
    (applyExtract t m).mask_path = t.mask_path ∧
    (applyExtract t m).selection_path = t.selection_path := by
  unfold applyExtract
  rcases extract_slots_from_message m with ⟨st, po, bgv, mo⟩
  cases st <;> cases po <;> cases bgv <;> cases mo <;>
    simp [applySlots]

/-! ## C4 — fill_defaults totality -/

theorem struthy_pyOr (x : Option String) (d : String) (hd : d ≠ "") :
    struthy (pyOr x d) = true := by
  cases x with
  | none => simpa [pyOr, struthy] using hd
  | some s =>
    by_cases hs : s = "" <;> simp [pyOr, struthy, hs, hd]

/-- C4 (counterexample): the claim promises `is_complete` for every task with
`intent` set, including `edit`; but `_fill_defaults` never touches
`image_path`, so an edit task without an image stays incomplete. -/
theorem fill_defaults_edit_counterexample :
    (fill_defaults { intent := Intent.edit } "").is_complete = false := by
  decide

/-- C4 (amended): for every task with `intent = generate` and any original
message, `_fill_defaults` produces a task satisfying `is_complete`; for
`edit` tasks completeness additionally needs `image_path`, which
`_fill_defaults` does not set. -/
theorem fill_defaults_generate_complete (t : GenerationTask) (m : String)
    (h : t.intent = .generate) :
    (fill_defaults t m).is_complete = true := by
  obtain ⟨i, o, st, mo, po, bgf, sz, pe, ip, mp, sp⟩ := t
  cases i with
  | edit => simp at h
  | generate =>
    simp only [fill_defaults, GenerationTask.is_complete]
    rw [Bool.and_eq_true]
    refine ⟨?_, struthy_pyOr _ "photo" (by decide)⟩
    by_cases ho : truthy o = true
    · rw [if_pos ho]; exact ho
    · rw [if_neg ho]
      split
      · rfl
      · split
        · rfl
        · split <;> rfl

/-- C4 (witness): a bare generate task. -/
theorem fill_defaults_generate_complete_witness :
    (fill_defaults { intent := Intent.generate } "dog please").is_complete = true :=
  fill_defaults_generate_complete { intent := Intent.generate } "dog please" rfl

/-! ## C2 — router fallback safety -/

/-- C2 (counterexample): on syntactically valid JSON that merely lacks the
required fields (`next_action` absent), `route_with_llm` returns `chat` even
though a pending task exists — not `run` with the pending task as the claim
states. -/
theorem router_fallback_counterexample :
    route_with_llm (some catTask) (CollabResult.parsed none none) =
        some RouterDecision.chat ∧
    route_with_llm (some catTask) (CollabResult.parsed none none) ≠
        some (RouterDecision.run catTask) := by
  refine ⟨rfl, by decide⟩

/-- C2 (amended): when the collaborator call raises or no API key is
configured (which covers transport failure and malformed JSON),
`route_with_llm` does not raise and falls back to `run` with the existing
pending task if any, else `chat`; when the reply is valid JSON whose
`next_action` is neither `run` nor `ask`, it returns `chat` regardless of the
pending task; it never falls back to `ask`. -/
theorem router_fallback_safety (pending : Option GenerationTask) :
    (∀ res : CollabResult, res = .noKeys ∨ res = .raised →
      route_with_llm pending res = some (fallbackDecision pending)) ∧
    (∀ (na : Option String) (task : Option TaskData),
      na ≠ some "run" → na ≠ some "ask" →
      route_with_llm pending (.parsed na task) = some RouterDecision.chat) := by
  constructor
  · rintro res (rfl | rfl) <;> rfl
  · intro na task h1 h2
    simp only [route_with_llm]
    rw [if_neg (fun hc => h1 hc.1), if_neg h2]

/-- C2 (witness): the fallback keeps a concrete pending task on a raised
call, and valid-but-fieldless JSON yields `chat`. -/
theorem router_fallback_safety_witness :
    route_with_llm (some catTask) CollabResult.raised =
        some (RouterDecision.run catTask) ∧
    route_with_llm none (CollabResult.parsed (some "done") none) =
        some RouterDecision.chat :=
  ⟨(router_fallback_safety (some catTask)).1 .raised (Or.inr rfl),
   (router_fallback_safety none).2 (some "done") none (by decide) (by decide)⟩

/-! ## C6 — prompt builder totality and content -/

theorem build_prompt_congr (t t' : GenerationTask)
    (h1 : pyOr t.object "subject" = pyOr t'.object "subject")
    (h2 : pyOr t.pose "standing" = pyOr t'.pose "standing")
    (h3 : pyOr t.bg "plain white background" = pyOr t'.bg "plain white background")
    (h4 : pyOr t.mood "cute" = pyOr t'.mood "cute")
    (h5 : pyOr t.style "illustration" = pyOr t'.style "illustration") :
    build_prompt t = build_prompt t' := by
  simp only [build_prompt, h1, h2, h3, h4, h5]

/-- C6: `_build_prompt` is a total function of the task; its output always
contains the task's object (or the literal default "subject"); a missing
object/pose/background/mood is indistinguishable from the per-field literal
defaults "subject" / "standing" / "plain white background" / "cute"; and any
set style outside the recognized template keywords produces exactly the photo
template output. -/
theorem build_prompt_total_content (t : GenerationTask) :
    pyInB (pyOr t.object "subject") (build_prompt t) = true ∧
    (t.object = none → build_prompt t = build_prompt { t with object := some "subject" }) ∧
    (t.pose = none → build_prompt t = build_prompt { t with pose := some "standing" }) ∧
    (t.bg = none → build_prompt t = build_prompt { t with bg := some "plain white background" }) ∧
    (t.mood = none → build_prompt t = build_prompt { t with mood := some "cute" }) ∧
    (∀ s, t.style = some s → s ≠ "" →
      pyToLower s ∉ ["anime", "cartoon", "illustration", "illustr", "vector",
        "pencil", "sketch", "3d", "3d render"] →
      build_prompt t = build_prompt { t with style := some "photo" }) := by
  refine ⟨?_, ?_, ?_, ?_, ?_, ?_⟩
  · simp only [build_prompt]
    split_ifs <;> exact pyInB_middle _ _ _
  · intro h
    apply build_prompt_congr <;> simp [h, pyOr]
  · intro h
    apply build_prompt_congr <;> simp [h, pyOr]
  · intro h
    apply build_prompt_congr <;> simp [h, pyOr]
  · intro h
    apply build_prompt_congr <;> simp [h, pyOr]
  · intro s hs hne hmem
    have hpy : pyOr t.style "illustration" = s := by
      simp [pyOr, hs, hne]
    have hpy' : pyOr ({ t with style := some "photo" } : GenerationTask).style "illustration"
        = "photo" := by
      simp [pyOr]
    simp only [List.mem_cons, List.mem_singleton, not_or] at hmem
    obtain ⟨m1, m2, m3, m4, m5, m6, m7, m8, m9⟩ := hmem
    simp only [build_prompt, hpy, hpy']
    rw [if_neg (by simp [m1, m2]), if_neg (by simp [m3, m4, m5]),
        if_neg (by simp [m6, m7]), if_neg (by simp [m8, m9]),
        if_neg (by decide), if_neg (by decide), if_neg (by decide), if_neg (by decide)]

/-- C6 (witness): an all-default generate task contains "subject"; a missing
object is the same as the literal default; an unrecognized style
("watercolor") produces the photo-template output. -/
theorem build_prompt_total_content_witness :
    pyInB (pyOr (none : Option String) "subject")
        (build_prompt { intent := Intent.generate }) = true ∧
    build_prompt { intent := Intent.generate } =
      build_prompt { intent := Intent.generate, object := some "subject" } ∧
    build_prompt { intent := Intent.generate, style := some "watercolor" } =
      build_prompt { intent := Intent.generate, style := some "photo" } :=
  ⟨(build_prompt_total_content { intent := Intent.generate }).1,
   (build_prompt_total_content { intent := Intent.generate }).2.1 rfl,
   (build_prompt_total_content { intent := Intent.generate, style := some "watercolor" }).2.2.2.2.2
     "watercolor" rfl (by decide) (by decide)⟩

/-! ## C1 — clarify-once policy -/

/-- With `asked_once` already true, any question the turn can still return
comes from the pre-dispatch edit guards of the run branch: the
upload-a-photo question (orchestrator.py 829) or the edit-spec question
(orchestrator.py 839); never the clarify-branch question of lines 700-743. -/
def askOnlyDispatch (c : Collab) (r : TurnResult) : Prop :=
  ∀ q, r.outcome = Outcome.ask q →
    q = askImageQuestion ∨ q = pyStrOr c.editSpecQuestion editSpecFallbackQuestion

theorem editPreflight_ask_dispatch (c : Collab) (sess1 : Option SessionCtx)
    (rc ec : Bool) (t2 : GenerationTask) :
    askOnlyDispatch c (editPreflight c sess1 rc ec t2) := by
  intro q hq
  unfold editPreflight at hq
  split at hq
  · split at hq
    · injection hq with h
      exact Or.inl h.symm
    · split at hq
      · exact absurd hq (by simp)
      · split at hq
        · injection hq with h
          exact Or.inr h.symm
        · exact absurd hq (by simp)
  · exact absurd hq (by simp)

theorem runDispatch_ask_dispatch (inp : TurnInput) (c : Collab)
    (sess : Option SessionCtx) (rc ec : Bool) (t : GenerationTask) :
    askOnlyDispatch c (runDispatch inp c sess rc ec t) :=
  editPreflight_ask_dispatch c (Option.map clear_pending_task sess) rc ec _

theorem handleDecision_ask_dispatch (inp : TurnInput) (sess : Option SessionCtx)
    (wasAsked : Bool) (pending : Option GenerationTask) (c : Collab)
    (rc ec : Bool) (d : RouterDecision) (h : wasAsked = true) :
    askOnlyDispatch c (handleDecision inp sess wasAsked pending c rc ec d) := by
  subst h
  cases d with
  | ask =>
    cases pending with
    | some p => exact runDispatch_ask_dispatch _ _ _ _ _ _
    | none =>
      intro q hq
      simp [handleDecision] at hq
  | chat =>
    intro q hq
    simp [handleDecision] at hq
  | run t => exact runDispatch_ask_dispatch _ _ _ _ _ _

theorem decidePhase_ask_dispatch (inp : TurnInput) (sess : Option SessionCtx)
    (wasAsked : Bool) (pending : Option GenerationTask) (c : Collab)
    (h : wasAsked = true) :
    askOnlyDispatch c (decidePhase inp sess wasAsked pending c) := by
  cases pending with
  | some p =>
    simp only [decidePhase]
    split
    all_goals try exact handleDecision_ask_dispatch _ _ _ _ _ _ _ _ h
    all_goals cases hr : c.router (some p) <;> simp only [hr] <;>
      exact handleDecision_ask_dispatch _ _ _ _ _ _ _ _ h
  | none =>
    simp only [decidePhase, h, Bool.not_true, Bool.false_eq_true, if_false]
    exact handleDecision_ask_dispatch _ _ _ _ _ _ _ _ rfl

theorem overrideEditStep_ask_dispatch (inp : TurnInput) (sess : Option SessionCtx)
    (wasAsked : Bool) (pending : Option GenerationTask) (c : Collab)
    (h : wasAsked = true) (hs : ∀ s, sess = some s → s.asked_once = true) :
    askOnlyDispatch c (overrideEditStep inp sess wasAsked pending c) := by
  have hcond : (c.editSpecMissing && sessNotAskedYet sess) = false := by
    cases sess with
    | none => simp [sessNotAskedYet]
    | some s => simp [sessNotAskedYet, hs s rfl]
  unfold overrideEditStep
  simp only [hcond, Bool.false_eq_true, if_false]
  split
  all_goals first
  | exact decidePhase_ask_dispatch _ _ _ _ _ h
  | (split <;> split <;> (intro q hq; simp at hq))

theorem attachmentStep_ask_dispatch (inp : TurnInput) (sess : Option SessionCtx)
    (wasAsked : Bool) (pending : Option GenerationTask) (c : Collab)
    (h : wasAsked = true) (hs : ∀ s, sess = some s → s.asked_once = true) :
    askOnlyDispatch c (attachmentStep inp sess wasAsked pending c) := by
  unfold attachmentStep
  split
  · cases sess with
    | some s =>
      refine overrideEditStep_ask_dispatch _ _ _ _ _ rfl ?_
      intro s' hs'
      injection hs' with he
      rw [← he]
      rfl
    | none => exact overrideEditStep_ask_dispatch _ _ _ _ _ h (fun s hc => nomatch hc)
  · exact overrideEditStep_ask_dispatch _ _ _ _ _ h hs

theorem fastGenStep_ask_dispatch (inp : TurnInput) (sess : Option SessionCtx)
    (wasAsked : Bool) (pending : Option GenerationTask) (c : Collab)
    (h : wasAsked = true) (hs : ∀ s, sess = some s → s.asked_once = true) :
    askOnlyDispatch c (fastGenStep inp sess wasAsked pending c) := by
  unfold fastGenStep
  split
  · cases c.fastGenUrl with
    | some url =>
      intro q hq
      simp at hq
    | none => exact attachmentStep_ask_dispatch _ _ _ _ _ h hs
  · exact attachmentStep_ask_dispatch _ _ _ _ _ h hs

theorem fastEditStep_ask_dispatch (inp : TurnInput) (sess : Option SessionCtx)
    (wasAsked : Bool) (pending : Option GenerationTask) (c : Collab)
    (h : wasAsked = true) (hs : ∀ s, sess = some s → s.asked_once = true) :
    askOnlyDispatch c (fastEditStep inp sess wasAsked pending c) := by
  unfold fastEditStep
  split
  · cases c.fastEditUrl with
    | some url =>
      intro q hq
      simp at hq
    | none => exact fastGenStep_ask_dispatch _ _ _ _ _ h hs
  · exact fastGenStep_ask_dispatch _ _ _ _ _ h hs

theorem afterSafetyStep_ask_dispatch (inp : TurnInput) (s : SessionCtx) (c : Collab)
    (h : s.asked_once = true) :
    askOnlyDispatch c (afterSafetyStep inp (some s) c) := by
  unfold afterSafetyStep
  refine fastEditStep_ask_dispatch _ _ _ _ _ h ?_
  intro s' hs'
  injection hs' with he
  rw [← he]
  exact h

/-- C1 (counterexample): a session whose clarifying question has already been
issued for the current pending task (`asked_once = true`, pending cat task)
can still receive a second question from the same `orchestrate` call: when
the second-turn router verdict is a run task with intent `edit` and no image,
and the session log holds no recent image, the run branch returns the
upload-a-photo need-more-info question (orchestrator.py 824-831) instead of
executing — so the number of questions per task cycle is not bounded by
one. -/
theorem clarify_once_counterexample :
    ({ is_onboarded := true, asked_once := true, pending_task := some catTask } : SessionCtx).asked_once
        = true ∧
    (orchestrateTurn { msg := "사진 바꿔줘" }
        (some { is_onboarded := true, asked_once := true, pending_task := some catTask })
        collabRunEdit).outcome = Outcome.ask askImageQuestion ∧
    (orchestrateTurn { msg := "사진 바꿔줘" }
        (some { is_onboarded := true, asked_once := true, pending_task := some catTask })
        collabRunEdit).outcome.isAsk = true :=
  ⟨rfl, rfl, rfl⟩

/-- C1 (amended): for a session whose `asked_once` flag is true at the start
of the turn, the clarify branch never asks again — a router `ask` verdict
with a pending task is converted into a forced dispatch of that task with
extractor-merged slots and the default-boosted prompt, and into the plain
general chat reply when no pending task exists.  The only questions such a
turn can still return are the pre-dispatch edit guards of the run branch:
the upload-a-photo question for an edit task with no image and no recent
image, and the edit-spec question for an edit task with no prompt whose spec
reports missing information. -/
theorem clarify_once (inp : TurnInput) (s : SessionCtx) (c : Collab)
    (h : s.asked_once = true) :
    (∀ q, (orchestrateTurn inp (some s) c).outcome = Outcome.ask q →
      q = askImageQuestion ∨ q = pyStrOr c.editSpecQuestion editSpecFallbackQuestion) ∧
    (∀ (sess : Option SessionCtx) (pend : GenerationTask) (rc ec : Bool),
      handleDecision inp sess true (some pend) c rc ec RouterDecision.ask =
        runDispatch inp c sess rc true
          { applyExtract pend inp.msg with
              prompt_en := some (forcedPrompt (applyExtract pend inp.msg)) }) ∧
    (∀ (sess : Option SessionCtx) (rc ec : Bool),
      handleDecision inp sess true none c rc ec RouterDecision.ask =
        ⟨Outcome.chat c.generalReply, sess, rc, ec⟩) := by
  refine ⟨?_, fun sess pend rc ec => rfl, fun sess rc ec => rfl⟩
  show askOnlyDispatch c (orchestrateTurn inp (some s) c)
  have hsafety : askOnlyDispatch c (safetyStep inp (some s) c) := by
    unfold safetyStep
    split
    · intro q hq
      simp at hq
    · exact afterSafetyStep_ask_dispatch inp s c h
  simp only [orchestrateTurn]
  split
  · cases extract_user_name inp.msg with
    | some n =>
      intro q hq
      simp at hq
    | none => exact hsafety
  · exact hsafety

/-- C1 (witness): the forced-run conversion at concrete inputs — with
`asked_once` true, an `ask` verdict over a pending cat task becomes a
dispatch of the merged task, and over no pending task becomes the plain
general chat reply. -/
theorem clarify_once_witness :
    handleDecision { msg := "몰라" } (some freshSession) true (some catTask)
        collabAsk false false RouterDecision.ask =
      runDispatch { msg := "몰라" } collabAsk (some freshSession) false true
        { applyExtract catTask "몰라" with
            prompt_en := some (forcedPrompt (applyExtract catTask "몰라")) } ∧
    handleDecision { msg := "몰라" } (some freshSession) true none
        collabAsk false false RouterDecision.ask =
      ⟨Outcome.chat collabAsk.generalReply, some freshSession, false, false⟩ :=
  ⟨(clarify_once { msg := "몰라" } { asked_once := true } collabAsk rfl).2.1
      (some freshSession) catTask false false,
   (clarify_once { msg := "몰라" } { asked_once := true } collabAsk rfl).2.2
      (some freshSession) false false⟩

/-! ## C7 — attachment-triggered bypass -/

theorem fill_defaults_frame (u : GenerationTask) (m : String) :
    (fill_defaults u m).intent = u.intent ∧
    (fill_defaults u m).image_path = u.image_path ∧
    (fill_defaults u m).mask_path = u.mask_path ∧
    (fill_defaults u m).selection_path = u.selection_path ∧
    (fill_defaults u m).prompt_en = u.prompt_en :=
  ⟨rfl, rfl, rfl, rfl, rfl⟩

theorem synthesizeAttachmentTask_fields (ip mp sp : Option String) :
    (synthesizeAttachmentTask ip mp sp).intent = .edit ∧
    (synthesizeAttachmentTask ip mp sp).object = none ∧
    (synthesizeAttachmentTask ip mp sp).image_path = (if truthy ip then ip else none) ∧
    (synthesizeAttachmentTask ip mp sp).mask_path = (if truthy mp then mp else none) ∧
    (synthesizeAttachmentTask ip mp sp).selection_path = (if truthy sp then sp else none) ∧
    (synthesizeAttachmentTask ip mp sp).prompt_en = none := by
  unfold synthesizeAttachmentTask
  split_ifs <;> simp [*]

theorem orchestrateTurn_onboarded (inp : TurnInput) (s : SessionCtx) (c : Collab)
    (h : s.is_onboarded = true) :
    orchestrateTurn inp (some s) c = safetyStep inp (some s) c := by
  simp [orchestrateTurn, h]

theorem safetyStep_clean (inp : TurnInput) (sess : Option SessionCtx) (c : Collab)
    (h : detect_prohibited inp.msg = none) :
    safetyStep inp sess c = afterSafetyStep inp sess c := by
  simp [safetyStep, h]

theorem afterSafetyStep_some (inp : TurnInput) (s : SessionCtx) (c : Collab) :
    afterSafetyStep inp (some s) c =
      fastEditStep inp (some s) s.asked_once s.pending_task c := rfl

theorem fastEditStep_no_image (inp : TurnInput) (sess : Option SessionCtx)
    (w : Bool) (p : Option GenerationTask) (c : Collab)
    (h : truthy inp.imagePath = false) :
    fastEditStep inp sess w p c = fastGenStep inp sess w p c := by
  simp [fastEditStep, h]

theorem fastGenStep_no_override (inp : TurnInput) (sess : Option SessionCtx)
    (w : Bool) (p : Option GenerationTask) (c : Collab)
    (h : inp.genOverride = false) :
    fastGenStep inp sess w p c = attachmentStep inp sess w p c := by
  simp [fastGenStep, h]

theorem attachmentStep_fires (inp : TurnInput) (s : SessionCtx) (w : Bool) (c : Collab)
    (h : (truthy inp.selectionPath || truthy inp.maskPath) = true) :
    attachmentStep inp (some s) w none c =
      overrideEditStep inp
        (some (set_pending_task s
          (synthesizeAttachmentTask inp.imagePath inp.maskPath inp.selectionPath)))
        true
        (some (synthesizeAttachmentTask inp.imagePath inp.maskPath inp.selectionPath)) c := by
  simp [attachmentStep, h]

theorem overrideEditStep_no_image (inp : TurnInput) (sess : Option SessionCtx)
    (w : Bool) (p : Option GenerationTask) (c : Collab)
    (h : truthy inp.imagePath = false) :
    overrideEditStep inp sess w p c = decidePhase inp sess w p c := by
  simp [overrideEditStep, h]

theorem decidePhase_pending_attachment (inp : TurnInput) (sess : Option SessionCtx)
    (w : Bool) (c : Collab) (p : GenerationTask) (hint : p.intent = .edit)
    (hatt : (truthy p.selection_path || truthy p.mask_path) = true) :
    decidePhase inp sess w (some p) c = runDispatch inp c sess false false p := by
  simp [decidePhase, hint, hatt, handleDecision]

theorem runDispatch_edit_no_image (inp : TurnInput) (c : Collab)
    (sess : Option SessionCtx) (rc ec : Bool) (p : GenerationTask)
    (hobj : truthy p.object = false) (hint : p.intent = .edit)
    (himg : truthy inp.imagePath = false)
    (hmask : (fill_defaults p inp.msg).mask_path
        = (if truthy inp.maskPath then inp.maskPath else none))
    (hsel : (fill_defaults p inp.msg).selection_path
        = (if truthy inp.selectionPath then inp.selectionPath else none))
    (himg2 : (fill_defaults p inp.msg).image_path = none)
    (hpr : (fill_defaults p inp.msg).prompt_en = none) :
    runDispatch inp c sess rc ec p =
      match c.lastImageUrl with
      | none => ⟨Outcome.ask askImageQuestion, Option.map clear_pending_task sess, rc, ec⟩
      | some url =>
        if c.editSpecMissing then
          ⟨Outcome.ask (pyStrOr c.editSpecQuestion editSpecFallbackQuestion),
            Option.map clear_pending_task sess, rc, ec⟩
        else
          ⟨Outcome.run { fill_defaults p inp.msg with
              image_path := some url, prompt_en := some c.editSpecPrompt },
            Option.map clear_pending_task sess, rc, ec⟩ := by
  have hmin : has_minimum_fields p = false := by
    simp [has_minimum_fields, hobj]
  have hfint : (fill_defaults p inp.msg).intent = .edit :=
    (fill_defaults_frame p inp.msg).1.trans hint
  have h1 : (truthy inp.imagePath && !truthy (fill_defaults p inp.msg).image_path) = false := by
    rw [himg]
    simp
  have h2 : (truthy inp.maskPath && !truthy (fill_defaults p inp.msg).mask_path) = false := by
    by_cases hm : truthy inp.maskPath = true
    · rw [hmask, if_pos hm, hm]
      simp
    · simp only [Bool.not_eq_true] at hm
      rw [hm]
      simp
  have h3 : (truthy inp.selectionPath && !truthy (fill_defaults p inp.msg).selection_path) = false := by
    by_cases hm : truthy inp.selectionPath = true
    · rw [hsel, if_pos hm, hm]
      simp
    · simp only [Bool.not_eq_true] at hm
      rw [hm]
      simp
  unfold runDispatch
  simp only [hmin, Bool.false_eq_true, if_false]
  rw [if_pos hfint]
  simp only [h1, Bool.false_eq_true, if_false]
  simp only [h2, Bool.false_eq_true, if_false]
  simp only [h3, Bool.false_eq_true, if_false]
  unfold editPreflight
  rw [if_pos hfint, himg2]
  simp only [truthy, Bool.false_eq_true, if_false]
  cases hurl : c.lastImageUrl with
  | none => rfl
  | some url =>
    have hpr3 : ({ fill_defaults p inp.msg with image_path := some url } : GenerationTask).prompt_en
        = none := hpr
    rw [hpr3]
    simp only [truthy, Bool.false_eq_true, if_false]

/-- C7 (counterexample): a selection-mask turn with no uploaded image on a
fresh onboarded session — the exact scenario of the claim — does not execute
the synthesized edit task: with no `image_path` and no recent image in the
session log, `orchestrate` returns the upload-a-photo need-more-info question
(orchestrator.py 824-831), so a clarifying question is emitted on precisely
the modelled path (the router is still never consulted). -/
theorem attachment_bypass_counterexample :
    (orchestrateTurn { msg := "", selectionPath := some "/sel.png" }
        (some { is_onboarded := true }) collabAsk).outcome = Outcome.ask askImageQuestion ∧
    (orchestrateTurn { msg := "", selectionPath := some "/sel.png" }
        (some { is_onboarded := true }) collabAsk).outcome.isAsk = true ∧
    (orchestrateTurn { msg := "", selectionPath := some "/sel.png" }
        (some { is_onboarded := true }) collabAsk).routerCalled = false :=
  ⟨rfl, rfl, rfl⟩

/-- C7 (amended): on a turn carrying a selection or mask attachment (and no
uploaded image, no generate-override, a clean message past onboarding) with
no pending task, the orchestrator synthesizes an edit `GenerationTask`
holding the saved attachment paths, stores it with `asked_once` forced true,
and the decision for that task is a direct `run` — `route_with_llm` is never
consulted.  The dispatch then executes the task only when an image is
available: with no recent image in the session log the upload-a-photo
question is returned, with a recent image but an incomplete edit spec the
edit-spec question is returned, and otherwise the task runs, carrying the
attachment paths, the recent image and the composed edit prompt. -/
theorem attachment_bypass (inp : TurnInput) (s : SessionCtx) (c : Collab)
    (hattach : (truthy inp.selectionPath || truthy inp.maskPath) = true)
    (hpend : s.pending_task = none)
    (honb : s.is_onboarded = true)
    (hsafe : detect_prohibited inp.msg = none)
    (himg : inp.imagePath = none)
    (hgen : inp.genOverride = false) :
    (set_pending_task s (synthesizeAttachmentTask inp.imagePath inp.maskPath inp.selectionPath)).pending_task
        = some (synthesizeAttachmentTask inp.imagePath inp.maskPath inp.selectionPath) ∧
    (set_pending_task s (synthesizeAttachmentTask inp.imagePath inp.maskPath inp.selectionPath)).asked_once
        = true ∧
    (orchestrateTurn inp (some s) c).routerCalled = false ∧
    (fill_defaults (synthesizeAttachmentTask inp.imagePath inp.maskPath inp.selectionPath) inp.msg).intent
        = Intent.edit ∧
    (fill_defaults (synthesizeAttachmentTask inp.imagePath inp.maskPath inp.selectionPath) inp.msg).selection_path
        = (if truthy inp.selectionPath then inp.selectionPath else none) ∧
    (fill_defaults (synthesizeAttachmentTask inp.imagePath inp.maskPath inp.selectionPath) inp.msg).mask_path
        = (if truthy inp.maskPath then inp.maskPath else none) ∧
    (c.lastImageUrl = none →
      (orchestrateTurn inp (some s) c).outcome = Outcome.ask askImageQuestion) ∧
    (∀ url, c.lastImageUrl = some url → c.editSpecMissing = true →
      (orchestrateTurn inp (some s) c).outcome =
        Outcome.ask (pyStrOr c.editSpecQuestion editSpecFallbackQuestion)) ∧
    (∀ url, c.lastImageUrl = some url → c.editSpecMissing = false →
      (orchestrateTurn inp (some s) c).outcome =
        Outcome.run { fill_defaults (synthesizeAttachmentTask inp.imagePath inp.maskPath inp.selectionPath) inp.msg with
          image_path := some url, prompt_en := some c.editSpecPrompt }) := by
  have himgf : truthy inp.imagePath = false := by rw [himg]; rfl
  obtain ⟨hTint, hTobj, hTimg, hTmask, hTsel, hTpr⟩ :=
    synthesizeAttachmentTask_fields inp.imagePath inp.maskPath inp.selectionPath
  obtain ⟨hFint, hFimg, hFmask, hFsel, hFpr⟩ :=
    fill_defaults_frame (synthesizeAttachmentTask inp.imagePath inp.maskPath inp.selectionPath) inp.msg
  have hTobjf : truthy (synthesizeAttachmentTask inp.imagePath inp.maskPath inp.selectionPath).object = false := by
    rw [hTobj]; rfl
  have hTatt : (truthy (synthesizeAttachmentTask inp.imagePath inp.maskPath inp.selectionPath).selection_path ||
      truthy (synthesizeAttachmentTask inp.imagePath inp.maskPath inp.selectionPath).mask_path) = true := by
    rw [hTsel, hTmask]
    rcases Bool.or_eq_true_iff.mp hattach with hx | hx
    · rw [if_pos hx, hx]
      rfl
    · rw [if_pos hx, hx]
      simp
  have himg2 : (fill_defaults (synthesizeAttachmentTask inp.imagePath inp.maskPath inp.selectionPath) inp.msg).image_path = none := by
    rw [hFimg, hTimg, himg]
    rfl
  have hpr : (fill_defaults (synthesizeAttachmentTask inp.imagePath inp.maskPath inp.selectionPath) inp.msg).prompt_en = none :=
    hFpr.trans hTpr
  have horch : orchestrateTurn inp (some s) c =
      runDispatch inp c
        (some (set_pending_task s (synthesizeAttachmentTask inp.imagePath inp.maskPath inp.selectionPath)))
        false false
        (synthesizeAttachmentTask inp.imagePath inp.maskPath inp.selectionPath) := by
    rw [orchestrateTurn_onboarded inp s c honb, safetyStep_clean inp _ c hsafe,
        afterSafetyStep_some, hpend, fastEditStep_no_image _ _ _ _ _ himgf,
        fastGenStep_no_override _ _ _ _ _ hgen, attachmentStep_fires _ _ _ _ hattach,
        overrideEditStep_no_image _ _ _ _ _ himgf,
        decidePhase_pending_attachment _ _ _ _ _ hTint hTatt]
  have hrun := runDispatch_edit_no_image inp c
    (some (set_pending_task s (synthesizeAttachmentTask inp.imagePath inp.maskPath inp.selectionPath)))
    false false
    (synthesizeAttachmentTask inp.imagePath inp.maskPath inp.selectionPath)
    hTobjf hTint himgf (hFmask.trans hTmask) (hFsel.trans hTsel) himg2 hpr
  refine ⟨rfl, rfl, ?_, hFint.trans hTint, hFsel.trans hTsel, hFmask.trans hTmask,
    ?_, ?_, ?_⟩
  · rw [horch, hrun]
    cases c.lastImageUrl with
    | none => rfl
    | some url => cases hb : c.editSpecMissing <;> simp [hb]
  · intro hu
    rw [horch, hrun, hu]
  · intro url hu hm
    rw [horch, hrun, hu]
    simp only [hm, if_true]
  · intro url hu hm
    rw [horch, hrun, hu]
    simp only [hm, Bool.false_eq_true, if_false]

/-- C7 (witness): a selection-mask turn on an onboarded session whose log
holds a recent image and whose edit spec is complete — the synthesized task
executes, carrying the recent image and the composed prompt, without any
router call. -/
theorem attachment_bypass_witness :
    (orchestrateTurn { msg := "", selectionPath := some "/sel.png" }
        (some { is_onboarded := true }) collabRecentImage).outcome =
      Outcome.run { fill_defaults (synthesizeAttachmentTask none none (some "/sel.png")) "" with
        image_path := some "http://img/last.png",
        prompt_en := some collabRecentImage.editSpecPrompt } ∧
    (orchestrateTurn { msg := "", selectionPath := some "/sel.png" }
        (some { is_onboarded := true }) collabRecentImage).routerCalled = false :=
  ⟨(attachment_bypass { msg := "", selectionPath := some "/sel.png" }
      { is_onboarded := true } collabRecentImage (by decide) rfl rfl (by decide) rfl rfl).2.2.2.2.2.2.2.2
      "http://img/last.png" rfl rfl,
   (attachment_bypass { msg := "", selectionPath := some "/sel.png" }
      { is_onboarded := true } collabRecentImage (by decide) rfl rfl (by decide) rfl rfl).2.2.1⟩

/-! ## C8 — prohibited-content short-circuit -/

/-- C8 (counterexample): the refusal is not the first check of the turn — the
onboarding step runs before it.  On the message "저는 방화" ("I am Banghwa",
where the candidate name is also the prohibited keyword for arson) sent to a
not-yet-onboarded session, `orchestrate` returns the onboarding greeting, not
the refusal, even though `detect_prohibited` flags the message. -/
theorem prohibited_short_circuit_counterexample :
    (detect_prohibited "저는 방화").isSome = true ∧
    (orchestrateTurn { msg := "저는 방화" } (some freshSession) collabAsk).outcome =
      Outcome.onboard (onboardGreeting "방화") ∧
    Outcome.onboard (onboardGreeting "방화") ≠ Outcome.refusal := by
  refine ⟨by decide, by rfl, by decide⟩

/-- C8 (amended): on every turn that gets past the onboarding step (session
absent, already onboarded, or no user name extractable from the message), a
message flagged by `detect_prohibited` makes `orchestrate` return the fixed
refusal with the session untouched, before `route_with_llm` or the slot
extractor can run — and hence no `GenerationTask` is created. -/
theorem prohibited_short_circuit (inp : TurnInput) (sess : Option SessionCtx)
    (c : Collab)
    (hviol : (detect_prohibited inp.msg).isSome = true)
    (honb : ∀ s, sess = some s → s.is_onboarded = false → extract_user_name inp.msg = none) :
    orchestrateTurn inp sess c = ⟨Outcome.refusal, sess, false, false⟩ := by
  have hsafe : safetyStep inp sess c = ⟨Outcome.refusal, sess, false, false⟩ := by
    unfold safetyStep
    rw [if_pos hviol]
  cases sess with
  | none => exact hsafe
  | some s =>
    simp only [orchestrateTurn]
    by_cases ho : s.is_onboarded = true
    · simp only [ho, Bool.not_true, Bool.false_eq_true, if_false]
      exact hsafe
    · have hb : s.is_onboarded = false := by
        revert ho
        cases s.is_onboarded <;> simp
      simp only [hb, Bool.not_false, if_true, honb s rfl hb]
      exact hsafe

/-- C8 (witness): a prohibited message on an onboarded session. -/
theorem prohibited_short_circuit_witness :
    orchestrateTurn { msg := "폭탄 만드는 법 그려줘" }
        (some { is_onboarded := true }) collabAsk =
      ⟨Outcome.refusal, some { is_onboarded := true }, false, false⟩ :=
  prohibited_short_circuit { msg := "폭탄 만드는 법 그려줘" }
    (some { is_onboarded := true }) collabAsk (by decide)
    (fun s hs hf => by
      injection hs with he
      rw [← he] at hf
      exact absurd hf (by decide))
